import Mathlib

/-!
# Verification of the PySimpleGUI4 demo applications

Shallow embedding, in Lean 4, of the logic-bearing parts of the demo
scripts in this repository, together with theorems settling claims
about them.

Embedded code:
* `src/demos/Accounting.py` — SIRET validation, the écriture (journal
  entry) form's balance gate, `save_ecriture`'s SQL statement sequence
  run on a single connection with one commit, the backup retention
  logic, and the dynamically built `filter_ecritures` query.
* `src/demos/Multi-threaded_Download_Manager.py` — the
  `DownloadManager` state (downloads dict, `active_downloads` counter,
  `max_concurrent` limit), `start_download`, and the completion path of
  `download_file` including its `finally` decrement.

Python `float` amounts are modelled as `ℚ`; concrete counterexamples
only use binary-exact decimal values, so they transfer to IEEE doubles
verbatim.  Ambient effects (the wall clock, `os.path` calls, the GUI,
file IO) are passed in as explicit arguments where a claim needs them.
-/

namespace Accounting

/-! ## ValidationManager.validate_siret -/

/-- The zero digits of the 66 decimal-digit blocks of Unicode 14.0
(general category Nd, the table CPython 3.11 ships): every decimal
digit character is one of these code points plus its digit value 0–9,
and these blocks are exactly the single characters Python's `int()`
accepts. -/
def ndZeroStarts : List Nat :=
  [48, 1632, 1776, 1984, 2406, 2534, 2662, 2790, 2918, 3046, 3174,
   3302, 3430, 3558, 3664, 3792, 3872, 4160, 4240, 6112, 6160, 6470,
   6608, 6784, 6800, 6992, 7088, 7232, 7248, 42528, 43216, 43264,
   43472, 43504, 43600, 44016, 65296, 66720, 68912, 69734, 69872,
   69942, 70096, 70384, 70736, 70864, 71248, 71360, 71472, 71904,
   72016, 72784, 73040, 73120, 92768, 92864, 93008, 120782, 120792,
   120802, 120812, 120822, 123200, 123632, 125264, 130032]

/-- Python `int(c)` on a one-character string, as applied by
`validate_siret` to each character of the SIRET: the digit value when
`c` is a Unicode decimal digit (category Nd — ASCII `'0'`–`'9'`,
Arabic-Indic digits, etc.), otherwise `ValueError`, modelled as
`none`. -/
def pyDigit (c : Char) : Option Nat :=
  match ndZeroStarts.find? fun z => decide (z ≤ c.toNat ∧ c.toNat < z + 10) with
  | some z => some (c.toNat - z)
  | none => none

/-- One step of the SIRET loop body: the digit `n` at 0-based index `i`
is doubled when `i % 2 == 1`, and a doubled value above 9 is replaced by
`n // 10 + n % 10`. -/
def siretStep (i n : Nat) : Nat :=
  if i % 2 = 1 then
    let m := n * 2
    if m > 9 then m / 10 + m % 10 else m
  else n

/-- The `total` accumulated by the `for i, digit in enumerate(siret)`
loop, starting at index `i`; `none` when some character makes `int`
raise `ValueError`. -/
def siretTotal : Nat → List Char → Option Nat
  | _, [] => some 0
  | i, c :: cs =>
    match pyDigit c, siretTotal (i + 1) cs with
    | some n, some rest => some (siretStep i n + rest)
    | _, _ => none

/-- `ValidationManager.validate_siret`: rejects an empty or
non-14-character string, then accumulates the checksum, returning
`False` on `ValueError` and otherwise testing `total % 10 == 0`. -/
def validate_siret (siret : String) : Bool :=
  if siret = "" ∨ siret.length ≠ 14 then false
  else
    match siretTotal 0 siret.toList with
    | none => false
    | some total => total % 10 = 0

/-- Spec-side doubling rule, following the claim's words: a digit is
doubled, and a doubled value greater than 9 is replaced by the sum of
its two decimal digits. -/
def claimDouble (n : Nat) : Nat :=
  if 2 * n > 9 then (2 * n) / 10 + (2 * n) % 10 else 2 * n

/-- Spec-side checksum of a digit list, indices starting at `i`: each
digit at an odd 0-based index is doubled per `claimDouble`. -/
def claimChecksumFrom (i : Nat) : List Nat → Nat
  | [] => 0
  | d :: ds => (if i % 2 = 1 then claimDouble d else d) + claimChecksumFrom (i + 1) ds

/-- The decimal value of a digit character (0 for a non-digit). -/
def digitVal (c : Char) : Nat := (pyDigit c).getD 0

/-- Spec-side checksum of the digit values of a string. -/
def claimChecksum (s : String) : Nat :=
  claimChecksumFrom 0 (s.toList.map digitVal)

/-- A character is a decimal digit in the sense of Python `int()`:
a Unicode decimal digit (category Nd). -/
def isDigitChar (c : Char) : Bool := (pyDigit c).isSome

/-! ## The écriture form and its balance gate

`show_ecriture_form_window` keeps the entry's lines as a list of dicts
produced by `show_ligne_ecriture_form`; on the `Enregistrer` event it
validates the header fields, the presence of lines, and the balance,
and only then calls `save_ecriture`. -/

/-- One line of an écriture as built by `show_ligne_ecriture_form`
(the dict with keys compte_id, compte_nom, libelle, debit, credit). -/
structure Ligne where
  compte_id : Nat
  compte_nom : String
  libelle : String
  debit : ℚ
  credit : ℚ
deriving DecidableEq

/-- `sum(ligne['debit'] for ligne in lignes_ecriture)`. -/
def totalDebits (lignes : List Ligne) : ℚ := (lignes.map Ligne.debit).sum

/-- `sum(ligne['credit'] for ligne in lignes_ecriture)`. -/
def totalCredits (lignes : List Ligne) : ℚ := (lignes.map Ligne.credit).sum

/-- What the `Enregistrer` handler does with a submission: which error
popup it shows (staying in the form loop), or that it proceeds to call
`save_ecriture`. -/
inductive EnregistrerOutcome where
  | missingFields
  | noLines
  | unbalanced
  | callsSave
deriving DecidableEq

/-- The validation sequence of the `Enregistrer` branch of
`show_ecriture_form_window`: empty `numero`/`date_ecriture`/`libelle`
→ "champs obligatoires" popup; no lines → "au moins une ligne" popup;
`abs(total_debits - total_credits) > 0.01` → "pas équilibrée" popup;
otherwise `save_ecriture` is called. -/
def enregistrerCheck (numero date_ecriture libelle : String)
    (lignes : List Ligne) : EnregistrerOutcome :=
  if numero = "" ∨ date_ecriture = "" ∨ libelle = "" then .missingFields
  else if lignes.isEmpty then .noLines
  else if |totalDebits lignes - totalCredits lignes| > 1 / 100 then .unbalanced
  else .callsSave

/-! ## The database state touched by save_ecriture -/

/-- A row of the `comptes` table (timestamp columns omitted; no
statement of `save_ecriture` references them). -/
structure CompteRow where
  id : Nat
  numero : String
  nom : String
  typ : String
  parent_id : Option Nat
  solde : ℚ
  actif : Bool
deriving DecidableEq

/-- A row of the `ecritures` table (`date_creation`/`piece_jointe`
omitted). -/
structure EcritureRow where
  id : Nat
  numero : String
  date_ecriture : String
  libelle : String
  montant_total : ℚ
  statut : String
  utilisateur : String
  date_modification : String
deriving DecidableEq

/-- A row of the `lignes_ecriture` table. -/
structure LigneRow where
  id : Nat
  ecriture_id : Nat
  compte_id : Nat
  libelle : String
  debit : ℚ
  credit : ℚ
deriving DecidableEq

/-- The tables `save_ecriture` can see, plus the AUTOINCREMENT
counters supplying fresh row ids. -/
structure DB where
  comptes : List CompteRow
  ecritures : List EcritureRow
  lignes_ecriture : List LigneRow
  nextEcritureId : Nat
  nextLigneId : Nat
deriving DecidableEq

/-- `current_ecriture_id` as used by the line INSERTs: the function's
`ecriture_id` argument on the modification path, `cursor.lastrowid` on
the add path. -/
inductive EcritureRef where
  | fixed (eid : Nat)
  | lastrowid
deriving DecidableEq

/-- The four parameterized SQL statements `save_ecriture` issues via
`cursor.execute`, with their bound parameters. -/
inductive SaveStmt where
  | updateEcriture (eid : Nat) (numero date_ecriture libelle : String)
      (montant : ℚ) (now : String)
  | deleteLignes (eid : Nat)
  | insertEcriture (numero date_ecriture libelle : String) (montant : ℚ)
      (utilisateur now : String)
  | insertLigne (target : EcritureRef) (compte_id : Nat) (libelle : String)
      (debit credit : ℚ)
deriving DecidableEq

/-- The single `sqlite3.connect` connection inside `save_ecriture`:
its uncommitted working state and `cursor.lastrowid`. -/
structure Conn where
  tx : DB
  lastrowid : Nat
deriving DecidableEq

/-- Effect of one `cursor.execute` on the connection. `UPDATE
ecritures SET ... WHERE id = ?` rewrites the matching row;
`DELETE FROM lignes_ecriture WHERE ecriture_id = ?` drops the matching
rows; the INSERTs append a fresh row (defaults `statut = 'brouillon'`
and `CURRENT_TIMESTAMP` from the schema). -/
def execStmt : SaveStmt → Conn → Conn
  | .updateEcriture eid numero date libelle montant now, c =>
    { c with tx := { c.tx with ecritures := c.tx.ecritures.map fun e =>
        if e.id = eid then
          { e with numero := numero, date_ecriture := date, libelle := libelle,
                   montant_total := montant, date_modification := now }
        else e } }
  | .deleteLignes eid, c =>
    { c with tx := { c.tx with
        lignes_ecriture := c.tx.lignes_ecriture.filter fun l => l.ecriture_id != eid } }
  | .insertEcriture numero date libelle montant user now, c =>
    let newId := c.tx.nextEcritureId
    { tx := { c.tx with
        ecritures := c.tx.ecritures
          ++ [⟨newId, numero, date, libelle, montant, "brouillon", user, now⟩],
        nextEcritureId := newId + 1 },
      lastrowid := newId }
  | .insertLigne target compte_id libelle debit credit, c =>
    let eid := match target with | .fixed e => e | .lastrowid => c.lastrowid
    { c with tx := { c.tx with
        lignes_ecriture := c.tx.lignes_ecriture
          ++ [⟨c.tx.nextLigneId, eid, compte_id, libelle, debit, credit⟩],
        nextLigneId := c.tx.nextLigneId + 1 } }

/-- The statement sequence `save_ecriture` issues, in source order:
`montant_total = sum(ligne['debit'])`; with an `ecriture_id` the UPDATE
then the DELETE of the old lines, without one the INSERT of the new
écriture; then one line INSERT per element of `lignes_ecriture`. -/
def saveStmts (ecriture_id : Option Nat)
    (numero date_ecriture libelle utilisateur : String)
    (lignes : List Ligne) (now : String) : List SaveStmt :=
  let montant_total := totalDebits lignes
  match ecriture_id with
  | some eid =>
    [.updateEcriture eid numero date_ecriture libelle montant_total now,
     .deleteLignes eid]
      ++ lignes.map fun l => .insertLigne (.fixed eid) l.compte_id l.libelle l.debit l.credit
  | none =>
    [.insertEcriture numero date_ecriture libelle montant_total utilisateur now]
      ++ lignes.map fun l => .insertLigne .lastrowid l.compte_id l.libelle l.debit l.credit

/-- Runs the statements in order on the connection; `fails i = true`
means the i-th `cursor.execute` raises `sqlite3.Error`, aborting the
rest (`none`). -/
def runStmts (fails : Nat → Bool) : Nat → List SaveStmt → Conn → Option Conn
  | _, [], c => some c
  | i, s :: rest, c =>
    if fails i then none else runStmts fails (i + 1) rest (execStmt s c)

/-- `ComptabiliteApp.save_ecriture`: one fresh connection, the
statement sequence above, a single `conn.commit()` at the end.  On
`sqlite3.Error` the except branch shows a popup and returns `False`;
nothing was committed, so the visible database is the original `db`.
On success the commit publishes the working state and it returns
`True`. -/
def save_ecriture (db : DB) (ecriture_id : Option Nat)
    (numero date_ecriture libelle utilisateur : String)
    (lignes : List Ligne) (now : String) (fails : Nat → Bool) : Bool × DB :=
  match runStmts fails 0
      (saveStmts ecriture_id numero date_ecriture libelle utilisateur lignes now)
      ⟨db, 0⟩ with
  | none => (false, db)
  | some c => (true, c.tx)

/-! ## filter_ecritures query building -/

/-- The fixed `SELECT ... WHERE 1=1` prefix of `filter_ecritures`
(whitespace normalised to single spaces). -/
def filterQueryBase : String :=
  "SELECT id, numero, date_ecriture, libelle, montant_total, statut FROM ecritures WHERE 1=1"

/-- `filter_ecritures`' query construction: starting from
`filterQueryBase` and empty `params`, each active filter appends a
fixed ` AND ... ?` fragment to the text and its value to `params`
(`if date_debut:` / `if date_fin:` / `if statut and statut != 'Tous':`),
then the fixed ORDER BY/LIMIT suffix is appended.  Returns the final
`(query, params)` pair handed to `execute_query`. -/
def filter_ecritures_query (date_debut date_fin statut : String) :
    String × List String :=
  let qp : String × List String := (filterQueryBase, [])
  let qp := if date_debut ≠ "" then
      (qp.1 ++ " AND date_ecriture >= ?", qp.2 ++ [date_debut]) else qp
  let qp := if date_fin ≠ "" then
      (qp.1 ++ " AND date_ecriture <= ?", qp.2 ++ [date_fin]) else qp
  let qp := if statut ≠ "" ∧ statut ≠ "Tous" then
      (qp.1 ++ " AND statut = ?", qp.2 ++ [statut]) else qp
  (qp.1 ++ " ORDER BY date_ecriture DESC, numero DESC LIMIT 200", qp.2)

/-- Spec-side query text: a function of the three booleans "is this
filter active" only, built purely from fixed fragments — it has no
access to the user-supplied values at all. -/
def fixedFilterQuery (hasDebut hasFin hasStatut : Bool) : String :=
  filterQueryBase
    ++ (if hasDebut then " AND date_ecriture >= ?" else "")
    ++ (if hasFin then " AND date_ecriture <= ?" else "")
    ++ (if hasStatut then " AND statut = ?" else "")
    ++ " ORDER BY date_ecriture DESC, numero DESC LIMIT 200"

/-! ## BackupManager retention -/

/-- A file of the backup directory, as seen through `os.listdir` and
`os.path.getctime`. -/
structure BackupFile where
  name : String
  ctime : ℚ
deriving DecidableEq

/-- Python `s.startswith(pre)`, on the character list. -/
def strStartsWith (s pre : String) : Bool :=
  pre.toList.isPrefixOf s.toList

/-- Python `s.endswith(suf)`, on the character list. -/
def strEndsWith (s suf : String) : Bool :=
  suf.toList.isSuffixOf s.toList

/-- The filename filter of `cleanup_old_backups`:
`filename.startswith('backup_') and filename.endswith('.db')`. -/
def isBackupName (s : String) : Bool :=
  strStartsWith s "backup_" && strEndsWith s ".db"

/-- `backup_files` after the loop: the directory entries matching the
backup name pattern. -/
def backupCandidates (dir : List BackupFile) : List BackupFile :=
  dir.filter fun f => isBackupName f.name

/-- The descending-by-ctime order used by
`backup_files.sort(key=lambda x: x[1], reverse=True)`. -/
def ctimeDesc (a b : BackupFile) : Prop := b.ctime ≤ a.ctime

instance : DecidableRel ctimeDesc :=
  fun a b => inferInstanceAs (Decidable (b.ctime ≤ a.ctime))

instance : IsTotal BackupFile ctimeDesc :=
  ⟨fun a b => le_total b.ctime a.ctime⟩

instance : IsTrans BackupFile ctimeDesc :=
  ⟨fun _ _ _ h1 h2 => le_trans h2 h1⟩

/-- The sorted `backup_files` list (most recent first; Python's sort
and insertion sort are both stable). -/
def sortDescByCtime (fs : List BackupFile) : List BackupFile :=
  fs.insertionSort ctimeDesc

/-- The files `cleanup_old_backups` removes (`os.remove`): everything
past the first `keep_count` entries of the sorted candidate list. -/
def cleanupRemoved (keep_count : Nat) (dir : List BackupFile) : List BackupFile :=
  (sortDescByCtime (backupCandidates dir)).drop keep_count

/-- The backup directory after `cleanup_old_backups(keep_count)`: the
original directory minus the removed files. -/
def cleanup_old_backups (keep_count : Nat) (dir : List BackupFile) : List BackupFile :=
  dir.filter fun f => !(cleanupRemoved keep_count dir).contains f

/-- `BackupManager.auto_backup`'s background thread: `create_backup()`
writes one new timestamped backup file into the directory, then
`cleanup_old_backups(10)` runs on the result. -/
def auto_backup (dir : List BackupFile) (newBackup : BackupFile) : List BackupFile :=
  cleanup_old_backups 10 (dir ++ [newBackup])

/-! ## Concrete instances used in counterexamples and witnesses -/

/-- An écriture with one debit line of 10 and one credit line of
10 + 1/128 = 10.0078125 (binary-exact, so the IEEE evaluation of the
Python code agrees): off balance by 1/128 < 0.01. -/
def crookedLignes : List Ligne :=
  [⟨512, "512 - Banque", "encaissement", 10, 0⟩,
   ⟨706, "706 - Ventes", "vente", 0, 10 + 1 / 128⟩]

/-- A balanced two-line écriture. -/
def balancedLignes : List Ligne :=
  [⟨512, "512 - Banque", "encaissement", 100, 0⟩,
   ⟨706, "706 - Ventes", "vente", 0, 100⟩]

/-- A small database: two accounts, one écriture (id 1) with its two
lines. -/
def demoDB : DB :=
  { comptes :=
      [⟨1, "512", "Banque", "actif", none, 250, true⟩,
       ⟨2, "706", "Prestations de services", "produit", none, 0, true⟩],
    ecritures := [⟨1, "1", "2024-01-01", "ouverture", 250, "brouillon", "admin", "2024-01-01"⟩],
    lignes_ecriture :=
      [⟨1, 1, 1, "solde initial", 250, 0⟩, ⟨2, 1, 2, "solde initial", 0, 250⟩],
    nextEcritureId := 2,
    nextLigneId := 3 }

/-- Ten pre-existing backup files, ctimes 1..10. -/
def tenBackups : List BackupFile :=
  [⟨"backup_comptabilite_01.db", 1⟩, ⟨"backup_comptabilite_02.db", 2⟩,
   ⟨"backup_comptabilite_03.db", 3⟩, ⟨"backup_comptabilite_04.db", 4⟩,
   ⟨"backup_comptabilite_05.db", 5⟩, ⟨"backup_comptabilite_06.db", 6⟩,
   ⟨"backup_comptabilite_07.db", 7⟩, ⟨"backup_comptabilite_08.db", 8⟩,
   ⟨"backup_comptabilite_09.db", 9⟩, ⟨"backup_comptabilite_10.db", 10⟩]

/-- The backup file `create_backup` writes on the eleventh run. -/
def eleventhBackup : BackupFile := ⟨"backup_comptabilite_11.db", 11⟩

end Accounting

namespace DownloadMgr

/-! ## Multi-threaded_Download_Manager.DownloadManager -/

/-- The dict `self.downloads[download_id]` value created by
`start_download` (later keys like `total_size`/`end_time` are added by
other handlers and not needed here). -/
structure DLInfo where
  url : String
  filename : String
  status : String
  progress : Nat
  speed : ℚ
  start_time : ℚ
deriving DecidableEq

/-- An event posted to the GUI queue by `window.write_event_value`:
event key and the payload's download id. -/
structure Event where
  key : String
  download_id : String
deriving DecidableEq

/-- The `DownloadManager` attributes shared between the GUI thread and
the worker threads, plus the GUI event queue the workers post to. -/
structure DMState where
  downloads : List (String × DLInfo)
  active_downloads : ℤ
  max_concurrent : ℤ
  events : List Event
deriving DecidableEq

/-- `DownloadManager.__init__`: empty downloads dict, counter 0,
`max_concurrent = 3`. -/
def initDM : DMState :=
  { downloads := [], active_downloads := 0, max_concurrent := 3, events := [] }

/-- Python dict assignment `d[k] = v` on an insertion-ordered dict:
overwrite in place when the key exists, else append. -/
def dictInsert (m : List (String × DLInfo)) (k : String) (v : DLInfo) :
    List (String × DLInfo) :=
  if m.any fun p => p.1 == k then
    m.map fun p => if p.1 == k then (k, v) else p
  else m ++ [(k, v)]

/-- What one call to `start_download` produces: its return value, the
manager state afterwards, how many worker threads it spawned, and
whether it showed the "Maximum concurrent downloads reached" popup. -/
structure StartResult where
  result : Option String
  state : DMState
  threadsSpawned : Nat
  popupShown : Bool
deriving DecidableEq

/-- `DownloadManager.start_download`: if
`active_downloads >= max_concurrent`, popup and plain `return` (value
`None`); otherwise build `download_id = "dl_" + str(int(time.time()))`,
register `downloads[download_id]` (url, joined path, status
`'Starting'`, progress 0, speed 0, start_time), increment
`active_downloads`, start one daemon `threading.Thread`, and return the
id.  The clock reads are the `timeInt`/`startTime` arguments; the
`os.path.join`/`get_filename_from_url` result is the `fullPath`
argument. -/
def start_download (s : DMState) (url fullPath : String)
    (timeInt : Nat) (startTime : ℚ) : StartResult :=
  if s.active_downloads ≥ s.max_concurrent then
    ⟨none, s, 0, true⟩
  else
    let download_id := "dl_" ++ toString timeInt
    let entry : DLInfo :=
      { url := url, filename := fullPath, status := "Starting",
        progress := 0, speed := 0, start_time := startTime }
    ⟨some download_id,
     { s with downloads := dictInsert s.downloads download_id entry,
              active_downloads := s.active_downloads + 1 },
     1, false⟩

/-- The tail of a worker thread's successful `download_file` run: set
`status = 'Completed'`, post `'-DOWNLOAD_COMPLETE-'` with the download
id via `write_event_value`, and in the `finally` block decrement the
shared `active_downloads` counter (history-file IO omitted). -/
def download_file_complete (s : DMState) (download_id : String) : DMState :=
  { s with
      downloads := s.downloads.map fun p =>
        if p.1 == download_id then (p.1, { p.2 with status := "Completed" }) else p,
      events := s.events ++ [⟨"-DOWNLOAD_COMPLETE-", download_id⟩],
      active_downloads := s.active_downloads - 1 }

/-! ## Concrete instances used in counterexamples and witnesses -/

/-- The entry `start_download` builds for a url at a given time. -/
def dlEntry (url path : String) (t : ℚ) : DLInfo :=
  { url := url, filename := path, status := "Starting",
    progress := 0, speed := 0, start_time := t }

/-- The manager after three downloads were started at seconds 100, 101
and 102 and none has finished: the concurrency limit is reached. -/
def dmBusy : DMState :=
  { downloads :=
      [("dl_100", dlEntry "http://ex.org/a.bin" "/dl/a.bin" 100),
       ("dl_101", dlEntry "http://ex.org/b.bin" "/dl/b.bin" 101),
       ("dl_102", dlEntry "http://ex.org/c.bin" "/dl/c.bin" 102)],
    active_downloads := 3, max_concurrent := 3, events := [] }

/-- The manager after one download was started at second 300 and is
still running: a second `start_download` in the same clock second
reuses the id `dl_300`. -/
def dmOneRunning : DMState :=
  { downloads := [("dl_300", dlEntry "http://ex.org/a.bin" "/dl/a.bin" 300)],
    active_downloads := 1, max_concurrent := 3, events := [] }

end DownloadMgr

/-! # Theorems -/

namespace Accounting

/-! ## C7 : validate_siret -/

theorem pyDigit_of_digit (c : Char) (h : isDigitChar c = true) :
    pyDigit c = some (digitVal c) := by
  unfold isDigitChar at h
  unfold digitVal
  cases hp : pyDigit c with
  | none =>
    rw [hp] at h
    simp at h
  | some n => rfl

theorem pyDigit_of_nondigit (c : Char) (h : isDigitChar c = false) :
    pyDigit c = none := by
  unfold isDigitChar at h
  cases hp : pyDigit c with
  | none => rfl
  | some n =>
    rw [hp] at h
    simp at h

theorem siretTotal_all_digits (i : Nat) (cs : List Char)
    (h : ∀ c ∈ cs, isDigitChar c = true) :
    siretTotal i cs = some (claimChecksumFrom i (cs.map digitVal)) := by
  induction cs generalizing i with
  | nil => simp [siretTotal, claimChecksumFrom]
  | cons c cs ih =>
    have hc : isDigitChar c = true := h c (List.mem_cons_self c cs)
    have hcs : ∀ x ∈ cs, isDigitChar x = true := fun x hx => h x (List.mem_cons_of_mem c hx)
    simp only [siretTotal, pyDigit_of_digit c hc, ih (i + 1) hcs, List.map_cons,
      claimChecksumFrom]
    congr 1
    unfold siretStep claimDouble
    by_cases hi : i % 2 = 1 <;> simp [hi, Nat.mul_comm]

theorem siretTotal_none_of_nondigit (i : Nat) (cs : List Char)
    (c : Char) (hc : c ∈ cs) (h : isDigitChar c = false) :
    siretTotal i cs = none := by
  induction cs generalizing i with
  | nil => cases hc
  | cons d ds ih =>
    rcases List.mem_cons.mp hc with rfl | hmem
    · simp [siretTotal, pyDigit_of_nondigit c h]
    · rw [siretTotal]
      rw [ih (i + 1) hmem]
      cases pyDigit d <;> rfl

/-- C7: `validate_siret` returns `False` for every string whose length
is not 14 or that contains a non-digit character (digit in the sense of
`int()`: any Unicode decimal digit), and on a 14-digit string it
returns `True` exactly when the checksum — each digit value at an odd
0-based index doubled, a doubled value above 9 replaced by the sum of
its decimal digits — is divisible by 10. -/
theorem c7_validate_siret (s : String) :
    ((s.length ≠ 14 ∨ ∃ c ∈ s.toList, isDigitChar c = false) →
      validate_siret s = false) ∧
    (s.length = 14 → (∀ c ∈ s.toList, isDigitChar c = true) →
      (validate_siret s = true ↔ claimChecksum s % 10 = 0)) := by
  constructor
  · rintro (hlen | ⟨c, hc, hnd⟩)
    · simp [validate_siret, hlen]
    · by_cases hlen : s.length = 14
      · have hne : s ≠ "" := by
          intro he
          rw [he] at hlen
          simp at hlen
        rw [validate_siret, if_neg (by simp [hne, hlen])]
        rw [siretTotal_none_of_nondigit 0 s.toList c hc hnd]
      · simp [validate_siret, hlen]
  · intro hlen hdig
    have hne : s ≠ "" := by
      intro he
      rw [he] at hlen
      simp at hlen
    rw [validate_siret, if_neg (by simp [hne, hlen])]
    rw [siretTotal_all_digits 0 s.toList hdig]
    simp [claimChecksum]

/-- Witness for C7 at concrete inputs: a 14-character string with a
letter is rejected, and on an all-digit 14-character string — here
fourteen ARABIC-INDIC DIGIT ZERO characters, which `int()` accepts —
the result agrees with the claim's checksum. -/
theorem c7_validate_siret_witness :
    validate_siret "1234567890123a" = false ∧
    (validate_siret "٠٠٠٠٠٠٠٠٠٠٠٠٠٠" = true ↔
      claimChecksum "٠٠٠٠٠٠٠٠٠٠٠٠٠٠" % 10 = 0) :=
  ⟨(c7_validate_siret "1234567890123a").1
      (Or.inr ⟨'a', by decide, by decide⟩),
   (c7_validate_siret "٠٠٠٠٠٠٠٠٠٠٠٠٠٠").2 (by decide) (by decide)⟩

end Accounting

namespace Accounting

/-! ## C1 : the balance gate of the écriture form -/

/-- C1 counterexample: an écriture whose debit total (10) differs from
its credit total (10 + 1/128 = 10.0078125, binary-exact) passes the
`Enregistrer` validation — the gate only rejects when the absolute
difference exceeds 0.01 — so `save_ecriture` is called on an entry
with `sum(debit) ≠ sum(credit)`. -/
theorem c1_counterexample :
    enregistrerCheck "1" "2024-01-15" "Vente" crookedLignes =
      EnregistrerOutcome.callsSave ∧
    totalDebits crookedLignes ≠ totalCredits crookedLignes := by
  have hd : totalDebits crookedLignes = 10 := by
    norm_num [totalDebits, crookedLignes]
  have hc : totalCredits crookedLignes = 10 + 1 / 128 := by
    norm_num [totalCredits, crookedLignes]
  constructor
  · have habs : |totalDebits crookedLignes - totalCredits crookedLignes| = 1 / 128 := by
      rw [hd, hc, show (10 : ℚ) - (10 + 1 / 128) = -(1 / 128) from by ring,
        abs_neg, abs_of_nonneg (by norm_num)]
    unfold enregistrerCheck
    rw [if_neg (by decide), if_neg (by decide), if_neg (by rw [habs]; norm_num)]
  · rw [hd, hc]
    norm_num

/-- C1 amended: a submission reaches `save_ecriture` exactly when the
header fields are non-empty, at least one line is present, and the
debit and credit totals agree within the 0.01 tolerance
(`abs(total_debits - total_credits) <= 0.01`); in particular every
submission off balance by more than 0.01 is rejected before
`save_ecriture`. -/
theorem c1_balance_gate (numero date_ecriture libelle : String)
    (lignes : List Ligne) :
    (enregistrerCheck numero date_ecriture libelle lignes =
        EnregistrerOutcome.callsSave ↔
      (numero ≠ "" ∧ date_ecriture ≠ "" ∧ libelle ≠ "" ∧ lignes ≠ [] ∧
        |totalDebits lignes - totalCredits lignes| ≤ 1 / 100)) ∧
    (|totalDebits lignes - totalCredits lignes| > 1 / 100 →
      enregistrerCheck numero date_ecriture libelle lignes ≠
        EnregistrerOutcome.callsSave) := by
  constructor
  · unfold enregistrerCheck
    split_ifs with h1 h2 h3
    · simp only [reduceCtorEq, false_iff]
      rintro ⟨hn, hd, hl, -, -⟩
      rcases h1 with h | h | h
      · exact hn h
      · exact hd h
      · exact hl h
    · simp only [reduceCtorEq, false_iff]
      rintro ⟨-, -, -, hne, -⟩
      exact hne (List.isEmpty_iff.mp h2)
    · simp only [reduceCtorEq, false_iff]
      rintro ⟨-, -, -, -, hle⟩
      exact absurd h3 (not_lt.mpr hle)
    · push_neg at h1
      simp only [true_iff]
      exact ⟨h1.1, h1.2.1, h1.2.2,
        fun he => h2 (by simp [he]), not_lt.mp h3⟩
  · intro hgt
    unfold enregistrerCheck
    by_cases h1 : numero = "" ∨ date_ecriture = "" ∨ libelle = ""
    · simp [h1]
    · by_cases h2 : lignes.isEmpty
      · simp [h1, h2]
      · rw [if_neg h1, if_neg h2, if_pos hgt]
        decide

/-- Witness for C1's amended theorem: a single 5-euro debit line with
no credit is off balance by more than 0.01 and does not reach
`save_ecriture`. -/
theorem c1_balance_gate_witness :
    enregistrerCheck "1" "2024-01-15" "Règlement"
        [⟨512, "512 - Banque", "règlement", 5, 0⟩] ≠
      EnregistrerOutcome.callsSave :=
  (c1_balance_gate "1" "2024-01-15" "Règlement"
    [⟨512, "512 - Banque", "règlement", 5, 0⟩]).2 (by
      have h5 : totalDebits [⟨512, "512 - Banque", "règlement", 5, 0⟩] -
          totalCredits [⟨512, "512 - Banque", "règlement", 5, 0⟩] = 5 := by
        norm_num [totalDebits, totalCredits]
      rw [h5, abs_of_nonneg (by norm_num)]
      norm_num)

end Accounting

namespace Accounting

/-! ## C3 : backup retention -/

/-- C3 counterexample: with ten backups already on disk, the next
`auto_backup` (create the eleventh, then `cleanup_old_backups(10)`)
removes the oldest previously created backup file — creating a backup
does not leave every previously created backup in place. -/
theorem c3_counterexample :
    (⟨"backup_comptabilite_01.db", 1⟩ : BackupFile) ∈ tenBackups ∧
    (⟨"backup_comptabilite_01.db", 1⟩ : BackupFile) ∉
      auto_backup tenBackups eleventhBackup ∧
    eleventhBackup ∈ auto_backup tenBackups eleventhBackup := by decide

/-- C3 amended: `cleanup_old_backups` implements recency-based
retention.  The files it removes are exactly the backup-named files
past the first `keep_count` of the list sorted most-recent-first: every
removed file matches `backup_*.db`, kept-plus-removed is a permutation
of the backup-named files, every removed file is no newer than every
kept one, and the number removed is the number of backup files minus
`keep_count`. -/
theorem c3_cleanup_retention (keep : Nat) (dir : List BackupFile) :
    (∀ f ∈ cleanupRemoved keep dir, isBackupName f.name = true) ∧
    ((sortDescByCtime (backupCandidates dir)).take keep ++ cleanupRemoved keep dir).Perm
      (backupCandidates dir) ∧
    (∀ a ∈ cleanupRemoved keep dir,
      ∀ b ∈ (sortDescByCtime (backupCandidates dir)).take keep, a.ctime ≤ b.ctime) ∧
    (cleanupRemoved keep dir).length = (backupCandidates dir).length - keep := by
  refine ⟨?_, ?_, ?_, ?_⟩
  · intro f hf
    have hmem : f ∈ sortDescByCtime (backupCandidates dir) :=
      List.mem_of_mem_drop hf
    have hcand : f ∈ backupCandidates dir := by
      unfold sortDescByCtime at hmem
      exact (List.mem_insertionSort ctimeDesc).mp hmem
    exact (List.mem_filter.mp hcand).2
  · unfold cleanupRemoved
    rw [List.take_append_drop]
    exact List.perm_insertionSort ctimeDesc (backupCandidates dir)
  · have hs : List.Sorted ctimeDesc (sortDescByCtime (backupCandidates dir)) :=
      List.sorted_insertionSort ctimeDesc (backupCandidates dir)
    have hsplit : List.Pairwise ctimeDesc
        ((sortDescByCtime (backupCandidates dir)).take keep ++ cleanupRemoved keep dir) := by
      unfold cleanupRemoved
      rw [List.take_append_drop]
      exact hs
    have hcross := (List.pairwise_append.mp hsplit).2.2
    intro a ha b hb
    exact hcross b hb a ha
  · unfold cleanupRemoved sortDescByCtime
    rw [List.length_drop,
      (List.perm_insertionSort ctimeDesc (backupCandidates dir)).length_eq]

/-- Witness for C3's amended theorem on the concrete eleven-backup
directory: the file `cleanup_old_backups(10)` removes is backup-named
and no newer than the kept eleventh backup. -/
theorem c3_cleanup_retention_witness :
    isBackupName (BackupFile.mk "backup_comptabilite_01.db" 1).name = true ∧
    (BackupFile.mk "backup_comptabilite_01.db" 1).ctime ≤ eleventhBackup.ctime :=
  ⟨(c3_cleanup_retention 10 (tenBackups ++ [eleventhBackup])).1
      ⟨"backup_comptabilite_01.db", 1⟩ (by decide),
   (c3_cleanup_retention 10 (tenBackups ++ [eleventhBackup])).2.2.1
      ⟨"backup_comptabilite_01.db", 1⟩ (by decide)
      eleventhBackup (by decide)⟩

end Accounting

namespace Accounting

/-! ## C4 and C6 : save_ecriture -/

theorem execStmt_comptes (s : SaveStmt) (c : Conn) :
    (execStmt s c).tx.comptes = c.tx.comptes := by
  cases s <;> rfl

theorem runStmts_comptes (fails : Nat → Bool) (stmts : List SaveStmt)
    (i : Nat) (c c' : Conn) (h : runStmts fails i stmts c = some c') :
    c'.tx.comptes = c.tx.comptes := by
  induction stmts generalizing i c with
  | nil =>
    rw [runStmts] at h
    cases h
    rfl
  | cons s rest ih =>
    rw [runStmts] at h
    by_cases hf : fails i = true
    · rw [if_pos hf] at h
      cases h
    · rw [if_neg hf] at h
      rw [ih (i + 1) (execStmt s c) h, execStmt_comptes]

/-- C4: `save_ecriture` never writes the `comptes` table: whatever the
call (add or modification, succeeding or failing at any statement), the
`comptes` table — and with it every account's `solde` — is exactly what
it was before; its statements only touch `ecritures` and
`lignes_ecriture`. -/
theorem c4_save_ecriture_comptes_frame (db : DB) (ecriture_id : Option Nat)
    (numero date_ecriture libelle utilisateur : String) (lignes : List Ligne)
    (now : String) (fails : Nat → Bool) :
    (save_ecriture db ecriture_id numero date_ecriture libelle utilisateur
        lignes now fails).2.comptes = db.comptes := by
  unfold save_ecriture
  cases hrun : runStmts fails 0
      (saveStmts ecriture_id numero date_ecriture libelle utilisateur lignes now)
      ⟨db, 0⟩ with
  | none => rfl
  | some c =>
    exact runStmts_comptes fails
      (saveStmts ecriture_id numero date_ecriture libelle utilisateur lignes now)
      0 ⟨db, 0⟩ c hrun

theorem runStmts_none_iff (fails : Nat → Bool) (stmts : List SaveStmt)
    (i : Nat) (c : Conn) :
    runStmts fails i stmts c = none ↔
      ∃ j, j < stmts.length ∧ fails (i + j) = true := by
  induction stmts generalizing i c with
  | nil => simp [runStmts]
  | cons s rest ih =>
    rw [runStmts]
    by_cases hf : fails i = true
    · rw [if_pos hf]
      refine iff_of_true rfl ⟨0, ?_, ?_⟩
      · simp
      · simpa using hf
    · rw [if_neg hf]
      rw [ih (i + 1) (execStmt s c)]
      constructor
      · rintro ⟨j, hj, hfj⟩
        exact ⟨j + 1, by simpa using Nat.succ_lt_succ hj,
          by rw [show i + (j + 1) = i + 1 + j by omega]; exact hfj⟩
      · rintro ⟨j, hj, hfj⟩
        cases j with
        | zero =>
          rw [Nat.add_zero] at hfj
          exact absurd hfj hf
        | succ j =>
          exact ⟨j, by simpa using Nat.lt_of_succ_lt_succ hj,
            by rw [show i + 1 + j = i + (j + 1) by omega]; exact hfj⟩

/-- C6: `save_ecriture` is atomic.  All statements run on the one
connection and a single commit ends the function, so whenever some
`cursor.execute` raises `sqlite3.Error` the function returns `False`
and the committed database is exactly the original — in particular a
modification that fails after the old lines' DELETE leaves the old
lines in place.  It fails exactly when some statement of its sequence
raises. -/
theorem c6_save_ecriture_atomic (db : DB) (ecriture_id : Option Nat)
    (numero date_ecriture libelle utilisateur : String) (lignes : List Ligne)
    (now : String) (fails : Nat → Bool) :
    ((save_ecriture db ecriture_id numero date_ecriture libelle utilisateur
        lignes now fails).1 = false →
      (save_ecriture db ecriture_id numero date_ecriture libelle utilisateur
        lignes now fails).2 = db) ∧
    ((save_ecriture db ecriture_id numero date_ecriture libelle utilisateur
        lignes now fails).1 = false ↔
      ∃ j, j < (saveStmts ecriture_id numero date_ecriture libelle utilisateur
          lignes now).length ∧ fails j = true) := by
  have hiff := runStmts_none_iff fails
    (saveStmts ecriture_id numero date_ecriture libelle utilisateur lignes now) 0 ⟨db, 0⟩
  unfold save_ecriture
  cases hrun : runStmts fails 0
      (saveStmts ecriture_id numero date_ecriture libelle utilisateur lignes now)
      ⟨db, 0⟩ with
  | none =>
    refine ⟨fun _ => rfl, iff_of_true rfl ?_⟩
    have := hiff.mp hrun
    simpa using this
  | some c =>
    constructor
    · intro h
      simp at h
    · simp only [Bool.true_eq_false, false_iff]
      intro hex
      have : runStmts fails 0
          (saveStmts ecriture_id numero date_ecriture libelle utilisateur lignes now)
          ⟨db, 0⟩ = none := hiff.mpr (by simpa using hex)
      rw [this] at hrun
      cases hrun

/-- Witness for C6 at a concrete modification call whose first
statement raises: the function reports failure and the committed
database is the original. -/
theorem c6_save_ecriture_atomic_witness :
    (save_ecriture demoDB (some 1) "1" "2024-02-01" "loyer" "admin"
        balancedLignes "2024-02-01" (fun _ => true)).2 = demoDB :=
  (c6_save_ecriture_atomic demoDB (some 1) "1" "2024-02-01" "loyer" "admin"
    balancedLignes "2024-02-01" (fun _ => true)).1 rfl

end Accounting

namespace Accounting

/-! ## C5 : parameterized query building in filter_ecritures -/

/-- C5: the only dynamically assembled SQL text in the accounting demo,
`filter_ecritures`' query, is built purely from fixed fragments with
`?` placeholders: the text equals `fixedFilterQuery` applied to the
three "is this filter active" booleans — a function with no access to
the user-supplied values — and the user-supplied values travel only in
the `params` tuple bound by `execute_query`. -/
theorem c5_filter_ecritures_parameterized (date_debut date_fin statut : String) :
    (filter_ecritures_query date_debut date_fin statut).1 =
      fixedFilterQuery (decide (date_debut ≠ "")) (decide (date_fin ≠ ""))
        (decide (statut ≠ "" ∧ statut ≠ "Tous")) ∧
    (filter_ecritures_query date_debut date_fin statut).2 =
      (if date_debut ≠ "" then [date_debut] else []) ++
      (if date_fin ≠ "" then [date_fin] else []) ++
      (if statut ≠ "" ∧ statut ≠ "Tous" then [statut] else []) := by
  unfold filter_ecritures_query fixedFilterQuery
  by_cases h1 : date_debut ≠ "" <;> by_cases h2 : date_fin ≠ "" <;>
    by_cases h3 : statut ≠ "" ∧ statut ≠ "Tous" <;>
      simp [h1, h2, h3]

end Accounting

namespace DownloadMgr

/-! ## C2 : inter-thread coordination in the download manager -/

/-- C2 counterexample: with three workers running the gate refuses a
fourth download; one worker finishing changes the shared counter
`active_downloads` (besides posting its event), after which the gate
accepts — while merely posting the same event without the `finally`
decrement leaves the gate refusing.  The worker threads therefore
coordinate with `start_download` through shared state other than the
GUI event queue. -/
theorem c2_counterexample :
    (start_download dmBusy "http://ex.org/d.bin" "/dl/d.bin" 200 200).result = none ∧
    (download_file_complete dmBusy "dl_100").active_downloads ≠
      dmBusy.active_downloads ∧
    (start_download (download_file_complete dmBusy "dl_100")
      "http://ex.org/d.bin" "/dl/d.bin" 200 200).result = some "dl_200" ∧
    (start_download
      { dmBusy with events := dmBusy.events ++ [⟨"-DOWNLOAD_COMPLETE-", "dl_100"⟩] }
      "http://ex.org/d.bin" "/dl/d.bin" 200 200).result = none := by decide

/-- C2 amended: besides posting results to the GUI event queue, the
download manager's worker threads coordinate with `start_download`
through the shared counter `active_downloads`: the `finally` block of
`download_file` decrements it, and `start_download` returns `None`
exactly when it has reached `max_concurrent` — a result unaffected by
whatever is in the event queue. -/
theorem c2_thread_coordination (s : DMState) (url fullPath : String)
    (timeInt : Nat) (startTime : ℚ) (download_id : String) :
    ((start_download s url fullPath timeInt startTime).result = none ↔
      s.active_downloads ≥ s.max_concurrent) ∧
    (download_file_complete s download_id).active_downloads =
      s.active_downloads - 1 ∧
    (download_file_complete s download_id).events =
      s.events ++ [⟨"-DOWNLOAD_COMPLETE-", download_id⟩] ∧
    (∀ es, (start_download { s with events := es } url fullPath timeInt startTime).result =
      (start_download s url fullPath timeInt startTime).result) := by
  refine ⟨?_, rfl, rfl, ?_⟩
  · unfold start_download
    by_cases h : s.active_downloads ≥ s.max_concurrent
    · simp [h]
    · simp [h]
  · intro es
    unfold start_download
    by_cases h : s.active_downloads ≥ s.max_concurrent
    · simp [h]
    · simp [h]

/-! ## C8 : the concurrency gate of start_download -/

/-- C8 counterexample: a non-gated call whose timestamp-derived id
`dl_300` collides with a download started in the same clock second
registers no new entry — the downloads dict keeps its size, the old
entry being overwritten — contradicting "registers exactly one new
download entry" for every non-gated call. -/
theorem c8_counterexample :
    dmOneRunning.active_downloads < dmOneRunning.max_concurrent ∧
    (start_download dmOneRunning "http://ex.org/b.bin" "/dl/b.bin" 300
        300).state.downloads.length = dmOneRunning.downloads.length ∧
    (start_download dmOneRunning "http://ex.org/b.bin" "/dl/b.bin" 300
        300).state.downloads.length ≠ dmOneRunning.downloads.length + 1 := by
  decide

/-- C8 amended: a call with `active_downloads >= max_concurrent`
returns `None`, leaves the state untouched and spawns no thread; any
other call returns the id `dl_<int(time)>`, stores its entry in the
downloads dict (one genuinely new entry whenever no same-second
download already holds that id, which otherwise is overwritten),
increments `active_downloads` by one and spawns exactly one worker
thread — so `start_download` never raises `active_downloads` above
`max_concurrent`, which `__init__` sets to 3. -/
theorem c8_start_download_invariant (s : DMState) (url fullPath : String)
    (timeInt : Nat) (startTime : ℚ) :
    (s.active_downloads ≥ s.max_concurrent →
      start_download s url fullPath timeInt startTime = ⟨none, s, 0, true⟩) ∧
    (s.active_downloads < s.max_concurrent →
      start_download s url fullPath timeInt startTime =
        ⟨some ("dl_" ++ toString timeInt),
         { s with
             downloads := dictInsert s.downloads ("dl_" ++ toString timeInt)
               (dlEntry url fullPath startTime),
             active_downloads := s.active_downloads + 1 },
         1, false⟩) ∧
    (s.active_downloads < s.max_concurrent →
      (s.downloads.any fun p => p.1 == "dl_" ++ toString timeInt) = false →
      (start_download s url fullPath timeInt startTime).state.downloads.length =
        s.downloads.length + 1) ∧
    (s.active_downloads ≤ s.max_concurrent →
      (start_download s url fullPath timeInt startTime).state.active_downloads ≤
        s.max_concurrent) ∧
    initDM.active_downloads = 0 ∧ initDM.max_concurrent = 3 := by
  refine ⟨?_, ?_, ?_, ?_, rfl, rfl⟩
  · intro h
    unfold start_download
    rw [if_pos h]
  · intro h
    unfold start_download
    rw [if_neg (not_le.mpr h)]
    rfl
  · intro h hfresh
    unfold start_download
    rw [if_neg (not_le.mpr h)]
    simp [dictInsert, hfresh]
  · intro h
    unfold start_download
    by_cases hc : s.active_downloads ≥ s.max_concurrent
    · rw [if_pos hc]
      exact h
    · rw [if_neg hc]
      push_neg at hc
      show s.active_downloads + 1 ≤ s.max_concurrent
      omega

/-- Witness for C8's amended theorem: the gate refuses a fourth
download at the limit, and on the fresh manager a first download adds
exactly one entry. -/
theorem c8_start_download_invariant_witness :
    start_download dmBusy "http://ex.org/d.bin" "/dl/d.bin" 400 400 =
      ⟨none, dmBusy, 0, true⟩ ∧
    (start_download initDM "http://ex.org/d.bin" "/dl/d.bin" 400
        400).state.downloads.length = initDM.downloads.length + 1 :=
  ⟨(c8_start_download_invariant dmBusy "http://ex.org/d.bin" "/dl/d.bin" 400 400).1
      (by decide),
   (c8_start_download_invariant initDM "http://ex.org/d.bin" "/dl/d.bin" 400 400).2.2.1
      (by decide) (by decide)⟩

end DownloadMgr
